import Mathlib

/-!
Shallow embedding of the `movement` system of `bevy_mod_wanderlust`
(`src/systems.rs`), a physics-driven character controller tick.

Conventions of the embedding:
* `f32` values are modelled as exact rationals (`ℚ`).
* Irrational math-library primitives (`sqrt` inside `clamp_length_max` /
  `normalize_or_zero`, `acos` inside `angle_between`) are taken as oracle
  functions `ℚ → ℚ` carried in the per-character environment `Env`; every
  definition is parametric in them.
* The physics engine (`RapierContext`) is external: its single-hit shape
  cast is modelled as "nearest hit among a finite world list of non-sensor
  colliders satisfying the filter predicate", per the external-interface
  contract; the geometric arguments of the cast (origin, rotation,
  direction, probe shape, length) are absorbed into that world list.
* Mutable Rust locals are threaded in SSA style: each assignment site of
  the source becomes one named intermediate definition.
-/

namespace Wanderlust

/-- Entity identifiers (bevy `Entity`). -/
abbrev Entity := Nat

/-- Three-component vector over `ℚ`, modelling glam's `Vec3` with `f32`
components taken as exact rationals. -/
structure Vec3 where
  x : ℚ
  y : ℚ
  z : ℚ
  deriving DecidableEq, Repr

instance : Zero Vec3 := ⟨⟨0, 0, 0⟩⟩

instance : Add Vec3 := ⟨fun a b => ⟨a.x + b.x, a.y + b.y, a.z + b.z⟩⟩

instance : Sub Vec3 := ⟨fun a b => ⟨a.x - b.x, a.y - b.y, a.z - b.z⟩⟩

instance : Neg Vec3 := ⟨fun a => ⟨-a.x, -a.y, -a.z⟩⟩

/-- Componentwise product: glam's `impl Mul<Vec3> for Vec3`. -/
instance : Mul Vec3 := ⟨fun a b => ⟨a.x * b.x, a.y * b.y, a.z * b.z⟩⟩

/-- Scalar multiplication: glam's `impl Mul<f32> for Vec3` (either side). -/
instance : SMul ℚ Vec3 := ⟨fun r v => ⟨r * v.x, r * v.y, r * v.z⟩⟩

namespace Vec3

/-- glam `Vec3::dot`. -/
def dot (a b : Vec3) : ℚ := a.x * b.x + a.y * b.y + a.z * b.z

/-- glam `Vec3::cross`. -/
def cross (a b : Vec3) : Vec3 :=
  ⟨a.y * b.z - a.z * b.y, a.z * b.x - a.x * b.z, a.x * b.y - a.y * b.x⟩

/-- glam `Vec3::length_squared`. -/
def lengthSq (v : Vec3) : ℚ := dot v v

/-- glam `Vec3::lerp`: `self + (rhs - self) * s`. -/
def lerp (a b : Vec3) (s : ℚ) : Vec3 := a + s • (b - a)

/-- glam `Vec3::project_onto`: `rhs * (self.dot(rhs) / rhs.length_squared())`.
In `ℚ`, division by zero yields zero (glam would yield a non-finite vector;
the callers of interest pass a nonzero axis). -/
def projectOnto (v u : Vec3) : Vec3 := (dot v u / dot u u) • u

/-- glam `Vec3::clamp_length_max`, with the square root taken from the
oracle `sqrt`: if `length_squared > max * max` the vector is rescaled to
length `max`, otherwise returned unchanged. -/
def clampLengthMax (sqrt : ℚ → ℚ) (v : Vec3) (m : ℚ) : Vec3 :=
  if m * m < lengthSq v then (m / sqrt (lengthSq v)) • v else v

/-- glam `Vec3::normalize_or_zero`, with the square root taken from the
oracle `sqrt`: zero for the zero vector, `v / |v|` otherwise. -/
def normalizeOrZero (sqrt : ℚ → ℚ) (v : Vec3) : Vec3 :=
  if lengthSq v = 0 then 0 else (1 / sqrt (lengthSq v)) • v

/-- glam `Vec3::angle_between`:
`acos (self.dot(rhs) / sqrt (self.length_squared() * rhs.length_squared()))`,
with `acos` and `sqrt` taken from the oracles. -/
def angleBetween (arccos sqrt : ℚ → ℚ) (a b : Vec3) : ℚ :=
  arccos (dot a b / sqrt (lengthSq a * lengthSq b))

end Vec3

/-- rapier `TOIStatus`. Only `Penetrating` is inspected by this system. -/
inductive TOIStatus where
  | Converged
  | OutOfIterations
  | Failed
  | Penetrating
  deriving DecidableEq, Repr

/-- rapier `Toi`, restricted to the fields this system reads: the
time-of-impact `toi`, the contact normal `normal1`, and the `status`. -/
structure Toi where
  toi : ℚ
  normal1 : Vec3
  status : TOIStatus
  deriving DecidableEq, Repr

/-- rapier `Velocity`: linear and angular velocity. -/
structure Velocity where
  linvel : Vec3
  angvel : Vec3
  deriving DecidableEq, Repr

/-- Modelled from the spec: `ControllerState` (defined in the repository's
`components.rs`, which is not under `src/`) — the per-character mutable
state: remaining extra-jump charges (unsigned, hence `ℕ`), the coyote,
jump-buffer, jump-ascent and ground-check-skip timers, the last computed
goal velocity, and the previous tick's jump-input flag. -/
structure ControllerState where
  remaining_jumps : ℕ
  coyote_timer : ℚ
  jump_buffer_timer : ℚ
  jump_timer : ℚ
  skip_ground_check_timer : ℚ
  last_goal_velocity : Vec3
  jump_pressed_last_frame : Bool
  deriving DecidableEq, Repr

/-- Modelled from the spec: `ControllerInput` (defined in the repository's
`components.rs`, which is not under `src/`) — desired movement direction,
jump-requested flag, and the custom impulse/torque overrides that are
consumed each tick. -/
structure ControllerInput where
  movement : Vec3
  jumping : Bool
  custom_impulse : Vec3
  custom_torque : Vec3
  deriving DecidableEq, Repr

/-- Modelled from the spec: `ControllerSettings` (defined in the
repository's `components.rs`, which is not under `src/`) — the immutable
per-character configuration, restricted to the fields `movement` reads.
`float_cast_origin` and `float_cast_length` only feed the external shape
cast, which the embedding models through `Env.world`. -/
structure ControllerSettings where
  up_vector : Vec3
  float_cast_origin : Vec3
  float_cast_length : ℚ
  max_ground_angle : ℚ
  float_distance : ℚ
  max_float_offset : ℚ
  min_float_offset : ℚ
  float_strength : ℚ
  float_dampen : ℚ
  acceleration : ℚ
  max_speed : ℚ
  max_acceleration_force : ℚ
  force_scale : ℚ
  gravity : ℚ
  jump_time : ℚ
  jump_force : ℚ
  jump_initial_force : ℚ
  jump_stop_force : ℚ
  jump_decay_function : ℚ → ℚ
  jump_skip_ground_check_duration : ℚ
  coyote_time_duration : ℚ
  jump_buffer_duration : ℚ
  extra_jumps : ℕ
  skip_ground_check_override : Bool
  upright_spring_strength : ℚ
  upright_spring_damping : ℚ

/-- rapier `ExternalImpulse`: the output force accumulator. -/
structure ExternalImpulse where
  impulse : Vec3
  torque_impulse : Vec3
  deriving DecidableEq, Repr

/-- Per-character view of the external world for one tick: the finite list
of non-sensor colliders the shape cast can reach (`world`), whether the
character registers any contact this tick (`hasContacts`), the `Velocity`
query (`velocities`), the two irrational math oracles, and the character's
current up axis `tfUp` (from `GlobalTransform::up`). -/
structure Env where
  world : List (Entity × Toi)
  hasContacts : Bool
  velocities : Entity → Option Velocity
  sqrt : ℚ → ℚ
  arccos : ℚ → ℚ
  tfUp : Vec3

/-- The single-hit shape cast of the external interface: the nearest
(minimal time-of-impact) collider of the world satisfying the filter
predicate, or `none`. Models `RapierContext::cast_shape`. -/
def castShape (world : List (Entity × Toi)) (pred : Entity → Bool) :
    Option (Entity × Toi) :=
  (world.filter fun h => pred h.1).argmin fun h => h.2.toi

/-- The filter predicate of one iteration of the scan loop of
`intersections_with_shape_cast`: excludes every collider already collected
in `acc` and applies the original predicate. -/
def scanPred (origPred : Entity → Bool) (acc : List (Entity × Toi))
    (e : Entity) : Bool :=
  !(acc.any fun coll => coll.1 == e) && origPred e

/-- Fuel-indexed unfolding of the `loop` of
`intersections_with_shape_cast`: cast with the current filter; on a hit,
push it and repeat; on a miss, stop. The fuel only bounds the number of
iterations; `scan_terminates` shows `world.length` fuel already reaches
the loop's fixed point. -/
def scanGo (world : List (Entity × Toi)) (origPred : Entity → Bool) :
    ℕ → List (Entity × Toi) → List (Entity × Toi)
  | 0, acc => acc
  | n + 1, acc =>
    match castShape world (scanPred origPred acc) with
    | some hit => scanGo world origPred n (acc ++ [hit])
    | none => acc

/-- `intersections_with_shape_cast` (`src/systems.rs`): clear the scratch
list (start from `[]`) and run the cast loop. -/
def intersections_with_shape_cast (world : List (Entity × Toi))
    (origPred : Entity → Bool) : List (Entity × Toi) :=
  scanGo world origPred world.length []

/-- Lines 36–38: the condition under which the ground scan runs this tick:
the skip timer is zero and the settings' skip override is not set. -/
def castsThisTick (settings : ControllerSettings) (st : ControllerState) :
    Bool :=
  decide (st.skip_ground_check_timer = 0 ∧
    settings.skip_ground_check_override = false)

/-- Lines 36–62: the selected ground cast. When the scan runs, it is the
first entry of the scan result whose status is not `Penetrating` and whose
contact normal is within `max_ground_angle` of the up axis; when the scan
is skipped it is `none`. -/
def groundCastOf (env : Env) (entity : Entity)
    (settings : ControllerSettings) (st : ControllerState) :
    Option (Entity × Toi) :=
  if castsThisTick settings st then
    ((intersections_with_shape_cast env.world fun collider =>
        collider != entity).filter fun h =>
      decide (h.2.status ≠ TOIStatus.Penetrating ∧
        Vec3.angleBetween env.arccos env.sqrt h.2.normal1 settings.up_vector ≤
          settings.max_ground_angle)).head?
  else none

/-- Line 60: the skip timer after the cast block — decayed by `dt` and
floored at zero when the scan was skipped, unchanged otherwise. -/
def skipTimerAfterCast (settings : ControllerSettings)
    (st : ControllerState) (dt : ℚ) : ℚ :=
  if castsThisTick settings st then st.skip_ground_check_timer
  else max (st.skip_ground_check_timer - dt) 0

/-- Lines 65–67: the skip timer is forced to zero when the character
registers any contact this tick. -/
def skipTimerAfterContacts (env : Env) (settings : ControllerSettings)
    (st : ControllerState) (dt : ℚ) : ℚ :=
  if env.hasContacts then 0 else skipTimerAfterCast settings st dt

/-- Lines 69–73: the float offset `toi - float_distance` of the selected
ground cast, when there is one. -/
def floatOffsetOf (env : Env) (entity : Entity)
    (settings : ControllerSettings) (st : ControllerState) : Option ℚ :=
  (groundCastOf env entity settings st).map fun h =>
    h.2.toi - settings.float_distance

/-- Lines 75–79: grounded iff a ground cast was selected and its float
offset lies within `[min_float_offset, max_float_offset]`. -/
def groundedOf (env : Env) (entity : Entity)
    (settings : ControllerSettings) (st : ControllerState) : Bool :=
  match floatOffsetOf env entity settings st with
  | some offset =>
    decide (offset ≤ settings.max_float_offset ∧
      settings.min_float_offset ≤ offset)
  | none => false

/-- Lines 81–86: remaining jumps after the grounded classification —
refreshed to `extra_jumps` when grounded, otherwise unchanged. -/
def remainingAfterGround (env : Env) (entity : Entity)
    (settings : ControllerSettings) (st : ControllerState) : ℕ :=
  if groundedOf env entity settings st then settings.extra_jumps
  else st.remaining_jumps

/-- Lines 81–86: coyote timer after the grounded classification —
refreshed to its full duration when grounded, otherwise decayed by `dt`
and floored at zero. -/
def coyoteAfterGround (env : Env) (entity : Entity)
    (settings : ControllerSettings) (st : ControllerState) (dt : ℚ) : ℚ :=
  if groundedOf env entity settings st then settings.coyote_time_duration
  else max (st.coyote_timer - dt) 0

/-- Lines 88–93: gravity for this tick — `up * -gravity * dt` when no
ground cast was selected, zero otherwise. -/
def gravityOf (env : Env) (entity : Entity)
    (settings : ControllerSettings) (st : ControllerState) (dt : ℚ) :
    Vec3 :=
  if groundCastOf env entity settings st = none then
    (-settings.gravity * dt) • settings.up_vector
  else 0

/-- Lines 102–103 and 116: the ground body's velocity lookup — only
performed when a ground cast was selected. -/
def groundVelOf (env : Env) (entity : Entity)
    (settings : ControllerSettings) (st : ControllerState) :
    Option Velocity :=
  match groundCastOf env entity settings st with
  | some (ground, _) => env.velocities ground
  | none => none

/-- Lines 102–118: the float spring force before any jump-related zeroing:
`-up * (snap * float_strength - relative_align * float_dampen)` when a
ground cast was selected, zero otherwise. -/
def floatSpringRaw (env : Env) (entity : Entity)
    (settings : ControllerSettings) (st : ControllerState)
    (vel : Velocity) : Vec3 :=
  match groundCastOf env entity settings st with
  | some (ground, intersection) =>
    let vel_align := Vec3.dot (-settings.up_vector) vel.linvel
    let ground_vel_align := Vec3.dot (-settings.up_vector)
      (((env.velocities ground).map Velocity.linvel).getD 0)
    let relative_align := vel_align - ground_vel_align
    let snap := intersection.toi - settings.float_distance
    (snap * settings.float_strength - relative_align * settings.float_dampen)
      • (-settings.up_vector)
  | none => 0

/-- Line 134: the target of the goal-velocity interpolation — the clamped
input direction scaled by `max_speed`, plus the ground body's linear
velocity (zero when there is no ground cast or the ground body has no
`Velocity`). -/
def combinedGoalVel (env : Env) (entity : Entity)
    (settings : ControllerSettings) (st : ControllerState)
    (input : ControllerInput) : Vec3 :=
  settings.max_speed • Vec3.clampLengthMax env.sqrt input.movement 1 +
    ((groundVelOf env entity settings st).map Velocity.linvel).getD 0

/-- Lines 132–136: the blended goal velocity
`lerp last_goal_velocity combined (min (acceleration * dt) 1)`, persisted
into the state as the next tick's `last_goal_velocity`. -/
def goalVelOf (env : Env) (entity : Entity)
    (settings : ControllerSettings) (st : ControllerState)
    (input : ControllerInput) (dt : ℚ) : Vec3 :=
  Vec3.lerp st.last_goal_velocity
    (combinedGoalVel env entity settings st input)
    (min (settings.acceleration * dt) 1)

/-- Lines 121–147: the horizontal movement force — the needed acceleration
`goal_vel - linvel` clamped in magnitude to `max_acceleration_force` and
scaled by `force_scale`. -/
def movementForce (env : Env) (entity : Entity)
    (settings : ControllerSettings) (st : ControllerState)
    (input : ControllerInput) (dt : ℚ) (vel : Velocity) : Vec3 :=
  settings.force_scale • Vec3.clampLengthMax env.sqrt
    (goalVelOf env entity settings st input dt - vel.linvel)
    settings.max_acceleration_force

/-- Line 149: the rising edge of the jump input. -/
def justJumped (st : ControllerState) (input : ControllerInput) : Bool :=
  input.jumping && !st.jump_pressed_last_frame

/-- Lines 150–156: the jump-buffer timer after the airborne buffering
block — set to its full duration on a rising edge while not grounded,
decayed (floored at zero) while not grounded otherwise, and unchanged when
grounded. -/
def bufferAfterAir (env : Env) (entity : Entity)
    (settings : ControllerSettings) (st : ControllerState)
    (input : ControllerInput) (dt : ℚ) : ℚ :=
  if groundedOf env entity settings st then st.jump_buffer_timer
  else if justJumped st input then settings.jump_buffer_duration
  else max (st.jump_buffer_timer - dt) 0

/-- Lines 158–178: the ascent/cancel block. Returns the jump force of the
block, the jump-ascent timer after the block, and whether the block zeroed
the float spring (the ascent-thrust branch does; the early-release stop
branch does not). -/
def ascentStage (settings : ControllerSettings) (st : ControllerState)
    (input : ControllerInput) (dt : ℚ) (grounded : Bool) (vel : Velocity) :
    Vec3 × ℚ × Bool :=
  if 0 < st.jump_timer ∧ grounded = false then
    if input.jumping = false then
      ((-settings.jump_stop_force) •
        Vec3.projectOnto vel.linvel settings.up_vector, 0, false)
    else
      let t := max (st.jump_timer - dt) 0
      ((settings.jump_force * dt *
          settings.jump_decay_function
            ((settings.jump_time - t) / settings.jump_time))
        • settings.up_vector, t, true)
  else (0, st.jump_timer, false)

/-- Lines 181–182: the jump trigger condition, evaluated on the already
updated buffer, coyote and remaining-jump values: a rising-edge or
buffered request, together with grounded, a positive coyote timer, or a
remaining extra-jump charge. -/
def jumpTriggered (env : Env) (entity : Entity)
    (settings : ControllerSettings) (st : ControllerState)
    (input : ControllerInput) (dt : ℚ) : Bool :=
  (justJumped st input ||
      decide (0 < bufferAfterAir env entity settings st input dt)) &&
    (groundedOf env entity settings st ||
      decide (0 < coyoteAfterGround env entity settings st dt) ||
      decide (0 < remainingAfterGround env entity settings st))

/-- Lines 159–197: the jump force written for this tick — the trigger
override `linvel * up_vector * -1 + jump_initial_force * up_vector`
(componentwise product with the up axis) when a jump triggers, otherwise
the ascent/cancel block's force. -/
def jumpFinal (env : Env) (entity : Entity)
    (settings : ControllerSettings) (st : ControllerState)
    (input : ControllerInput) (dt : ℚ) (vel : Velocity) : Vec3 :=
  if jumpTriggered env entity settings st input dt then
    (-1 : ℚ) • (vel.linvel * settings.up_vector) +
      settings.jump_initial_force • settings.up_vector
  else (ascentStage settings st input dt
    (groundedOf env entity settings st) vel).1

/-- Lines 102–197: the float spring force actually contributed to the
impulse — zero when the ascent-thrust branch ran or a jump triggered,
`floatSpringRaw` otherwise. -/
def floatSpringFinal (env : Env) (entity : Entity)
    (settings : ControllerSettings) (st : ControllerState)
    (input : ControllerInput) (dt : ℚ) (vel : Velocity) : Vec3 :=
  if (ascentStage settings st input dt
        (groundedOf env entity settings st) vel).2.2 ||
      jumpTriggered env entity settings st input dt then 0
  else floatSpringRaw env entity settings st vel

/-- Lines 199–212: the upright restoring torque
`(axis * angle * strength - angvel * damping) * dt`. -/
def uprightOf (env : Env) (settings : ControllerSettings) (dt : ℚ)
    (vel : Velocity) : Vec3 :=
  let to_goal_axis := Vec3.normalizeOrZero env.sqrt
    (Vec3.cross env.tfUp settings.up_vector)
  let to_goal_angle := Vec3.angleBetween env.arccos env.sqrt env.tfUp
    settings.up_vector
  dt • ((to_goal_angle * settings.upright_spring_strength) • to_goal_axis -
    settings.upright_spring_damping • vel.angvel)

/-- Result of one character's tick: the controller state and input after
the tick, and the impulse/torque written to the `ExternalImpulse`
accumulator. -/
structure TickOut where
  state : ControllerState
  input : ControllerInput
  impulse : Vec3
  torque_impulse : Vec3
  deriving DecidableEq, Repr

/-- Lines 36–221: one character's pass through the body of `movement`
(after the `dt == 0` early return, which `movementRun` handles). Returns
`none` when the character has no `Velocity` component — the source's
`expect` panic, a fatal precondition violation. -/
def movementTick (env : Env) (entity : Entity)
    (settings : ControllerSettings) (st : ControllerState)
    (input : ControllerInput) (dt : ℚ) : Option TickOut :=
  match env.velocities entity with
  | none => none
  | some vel =>
    let grounded := groundedOf env entity settings st
    let triggered := jumpTriggered env entity settings st input dt
    let coyote := coyoteAfterGround env entity settings st dt
    let remaining := remainingAfterGround env entity settings st
    some
      { state :=
          { remaining_jumps :=
              if triggered ∧ grounded = false ∧ coyote = 0 then
                remaining - 1
              else remaining
            coyote_timer := coyote
            jump_buffer_timer :=
              if triggered then 0
              else bufferAfterAir env entity settings st input dt
            jump_timer :=
              if triggered then settings.jump_time
              else (ascentStage settings st input dt grounded vel).2.1
            skip_ground_check_timer :=
              if triggered then settings.jump_skip_ground_check_duration
              else skipTimerAfterContacts env settings st dt
            last_goal_velocity := goalVelOf env entity settings st input dt
            jump_pressed_last_frame := input.jumping }
        input :=
          { input with custom_impulse := 0, custom_torque := 0 }
        impulse :=
          movementForce env entity settings st input dt vel +
            jumpFinal env entity settings st input dt vel +
            floatSpringFinal env entity settings st input dt vel +
            gravityOf env entity settings st dt +
            input.custom_impulse
        torque_impulse :=
          uprightOf env settings dt vel + input.custom_torque }

/-- One row of the `bodies` query: the entity, its per-tick external
environment, its components. -/
structure Character where
  entity : Entity
  env : Env
  settings : ControllerSettings
  state : ControllerState
  input : ControllerInput
  body : ExternalImpulse

/-- Write one tick's result back into a character's components. -/
def applyTick (c : Character) (out : TickOut) : Character :=
  { c with
    state := out.state
    input := out.input
    body := { impulse := out.impulse, torque_impulse := out.torque_impulse } }

/-- Lines 24–223: the `movement` system's loop over the query. `dt` is
read inside the loop but is the same for every character; on `dt = 0` the
`return` aborts the whole system, leaving this and all remaining
characters untouched. `none` models the `expect` panic. -/
def movementRun (dt : ℚ) : List Character → Option (List Character)
  | [] => some []
  | c :: rest =>
    if dt = 0 then some (c :: rest)
    else
      match movementTick c.env c.entity c.settings c.state c.input dt with
      | none => none
      | some out => (movementRun dt rest).map fun rs => applyTick c out :: rs

/-- Modelled from the spec: the jump-force override exactly as the spec
words it — `(current_velocity · up) * up * -1 + jump_initial_force * up`,
the up-axis projection of the current velocity negated plus the initial
jump impulse. For comparison with the source-derived `jumpFinal`. -/
def specJumpForce (v up : Vec3) (jump_initial_force : ℚ) : Vec3 :=
  (-1 : ℚ) • (Vec3.dot v up • up) + jump_initial_force • up

/-- Example configuration A: a non-axis up vector `(1,1,0)`, one stored
extra-jump charge available, and force terms other than the jump override
tuned to zero. -/
def exSettingsA : ControllerSettings where
  up_vector := ⟨1, 1, 0⟩
  float_cast_origin := 0
  float_cast_length := 1
  max_ground_angle := 0
  float_distance := 1
  max_float_offset := 1/2
  min_float_offset := -1/2
  float_strength := 1
  float_dampen := 1
  acceleration := 0
  max_speed := 0
  max_acceleration_force := 1
  force_scale := 0
  gravity := 0
  jump_time := 1
  jump_force := 1
  jump_initial_force := 0
  jump_stop_force := 1
  jump_decay_function := fun _ => 1
  jump_skip_ground_check_duration := 3
  coyote_time_duration := 2
  jump_buffer_duration := 2
  extra_jumps := 2
  skip_ground_check_override := false
  upright_spring_strength := 0
  upright_spring_damping := 0

/-- Example state A: airborne mid-skip-window (skip timer `1`), coyote
timer zero, one remaining extra-jump charge, jump not pressed last tick. -/
def exStateA : ControllerState where
  remaining_jumps := 1
  coyote_timer := 0
  jump_buffer_timer := 0
  jump_timer := 0
  skip_ground_check_timer := 1
  last_goal_velocity := 0
  jump_pressed_last_frame := false

/-- Example input A: jump requested this tick (a rising edge). -/
def exInputA : ControllerInput where
  movement := 0
  jumping := true
  custom_impulse := 0
  custom_torque := 0

/-- Example velocity A: horizontal unit velocity. -/
def exVelA : Velocity where
  linvel := ⟨1, 0, 0⟩
  angvel := 0

/-- Example environment A: empty world, no contacts, entity `0` carries
`exVelA`. -/
def exEnvA : Env where
  world := []
  hasContacts := false
  velocities := fun e => if e = 0 then some exVelA else none
  sqrt := fun _ => 0
  arccos := fun _ => 0
  tfUp := ⟨0, 1, 0⟩

/-- Example configuration B: an axis-aligned up vector, a float target of
`2` with acceptable offsets `[-1, 1]`, unit float strength and no damping,
unit jump-stop force. -/
def exSettingsB : ControllerSettings where
  up_vector := ⟨0, 1, 0⟩
  float_cast_origin := 0
  float_cast_length := 20
  max_ground_angle := 0
  float_distance := 2
  max_float_offset := 1
  min_float_offset := -1
  float_strength := 1
  float_dampen := 0
  acceleration := 0
  max_speed := 0
  max_acceleration_force := 1
  force_scale := 0
  gravity := 0
  jump_time := 1
  jump_force := 1
  jump_initial_force := 0
  jump_stop_force := 1
  jump_decay_function := fun _ => 1
  jump_skip_ground_check_duration := 3
  coyote_time_duration := 2
  jump_buffer_duration := 2
  extra_jumps := 2
  skip_ground_check_override := false
  upright_spring_strength := 0
  upright_spring_damping := 0

/-- Example state B: mid-ascent (jump timer `1`), skip timer zero so the
ground scan runs, no buffered request, no charges. -/
def exStateB : ControllerState where
  remaining_jumps := 0
  coyote_timer := 0
  jump_buffer_timer := 0
  jump_timer := 1
  skip_ground_check_timer := 0
  last_goal_velocity := 0
  jump_pressed_last_frame := true

/-- Example input B: jump released this tick. -/
def exInputB : ControllerInput where
  movement := 0
  jumping := false
  custom_impulse := 0
  custom_torque := 0

/-- Example velocity B: rising at `3` along the up axis. -/
def exVelB : Velocity where
  linvel := ⟨0, 3, 0⟩
  angvel := 0

/-- Example environment B: one far collider (entity `5`, time-of-impact
`10`, upward normal, converged status), so a ground cast is selected but
its float offset `8` is far outside `[-1, 1]`. -/
def exEnvB : Env where
  world := [(5, ⟨10, ⟨0, 1, 0⟩, TOIStatus.Converged⟩)]
  hasContacts := false
  velocities := fun e => if e = 0 then some exVelB else none
  sqrt := fun _ => 0
  arccos := fun _ => 0
  tfUp := ⟨0, 1, 0⟩

/-- Example configuration C: like B but with the skip-ground-check
override set. -/
def exSettingsC : ControllerSettings :=
  { exSettingsB with skip_ground_check_override := true }

/-- Example state C: skip timer exactly zero. -/
def exStateC : ControllerState :=
  { exStateB with jump_timer := 0, jump_pressed_last_frame := false }

/-- Example state D: like A but mid-ascent (jump timer `1`). -/
def exStateD : ControllerState :=
  { exStateA with jump_timer := 1 }

/-- Unfolding lemma: the zero vector's first component. -/
@[simp] theorem Vec3.zero_x : (0 : Vec3).x = 0 := rfl

/-- Unfolding lemma: the zero vector's second component. -/
@[simp] theorem Vec3.zero_y : (0 : Vec3).y = 0 := rfl

/-- Unfolding lemma: the zero vector's third component. -/
@[simp] theorem Vec3.zero_z : (0 : Vec3).z = 0 := rfl

/-- Unfolding lemma: the zero vector as a constructor. -/
@[simp] theorem Vec3.zero_def : (0 : Vec3) = ⟨0, 0, 0⟩ := rfl

/-- Unfolding lemma: vector addition is componentwise. -/
@[simp] theorem Vec3.add_def (a b : Vec3) :
    a + b = ⟨a.x + b.x, a.y + b.y, a.z + b.z⟩ := rfl

/-- Unfolding lemma: vector subtraction is componentwise. -/
@[simp] theorem Vec3.sub_def (a b : Vec3) :
    a - b = ⟨a.x - b.x, a.y - b.y, a.z - b.z⟩ := rfl

/-- Unfolding lemma: vector negation is componentwise. -/
@[simp] theorem Vec3.neg_def (a : Vec3) : -a = ⟨-a.x, -a.y, -a.z⟩ := rfl

/-- Unfolding lemma: the vector product is componentwise. -/
@[simp] theorem Vec3.mul_def (a b : Vec3) :
    a * b = ⟨a.x * b.x, a.y * b.y, a.z * b.z⟩ := rfl

/-- Unfolding lemma: scalar multiplication acts on each component. -/
@[simp] theorem Vec3.smul_def (r : ℚ) (v : Vec3) :
    r • v = ⟨r * v.x, r * v.y, r * v.z⟩ := rfl

/-- A filter along a weaker predicate is no longer. -/
theorem filter_length_le_of_imp {α : Type} {P Q : α → Bool}
    (h : ∀ x, Q x = true → P x = true) :
    ∀ l : List α, (l.filter Q).length ≤ (l.filter P).length := by
  intro l
  induction l with
  | nil => exact Nat.le_refl 0
  | cons a t ih =>
    cases hQ : Q a with
    | true =>
      simp only [List.filter_cons, hQ, h a hQ, if_true, List.length_cons]
      exact Nat.succ_le_succ ih
    | false =>
      cases hP : P a with
      | true =>
        simp only [List.filter_cons, hQ, hP, if_true, Bool.false_eq_true,
          if_false, List.length_cons]
        exact Nat.le_succ_of_le ih
      | false =>
        simp only [List.filter_cons, hQ, hP, Bool.false_eq_true, if_false]
        exact ih

/-- A filter along a strictly weaker predicate — one that fails on some
member the stronger one accepts — is strictly shorter. -/
theorem filter_length_lt_of_imp {α : Type} {P Q : α → Bool}
    (h : ∀ x, Q x = true → P x = true) {a : α} :
    ∀ l : List α, a ∈ l → P a = true → Q a = false →
      (l.filter Q).length < (l.filter P).length := by
  intro l
  induction l with
  | nil => intro ha; cases ha
  | cons b t ih =>
    intro hab hPa hQa
    rcases List.mem_cons.mp hab with rfl | hat
    · simp only [List.filter_cons, hPa, hQa, if_true, Bool.false_eq_true,
        if_false, List.length_cons]
      exact Nat.lt_succ_of_le (filter_length_le_of_imp h t)
    · cases hQb : Q b with
      | true =>
        simp only [List.filter_cons, hQb, h b hQb, if_true, List.length_cons]
        exact Nat.succ_lt_succ (ih hat hPa hQa)
      | false =>
        cases hPb : P b with
        | true =>
          simp only [List.filter_cons, hQb, hPb, if_true, Bool.false_eq_true,
            if_false, List.length_cons]
          exact Nat.lt_succ_of_lt (ih hat hPa hQa)
        | false =>
          simp only [List.filter_cons, hQb, hPb, Bool.false_eq_true, if_false]
          exact ih hat hPa hQa

/-- A hit returned by the shape cast lies in the world and satisfies the
filter predicate it was cast with. -/
theorem castShape_sound {world : List (Entity × Toi)} {pred : Entity → Bool}
    {hit : Entity × Toi} (h : castShape world pred = some hit) :
    hit ∈ world ∧ pred hit.1 = true := by
  unfold castShape at h
  have hmem : hit ∈ world.filter fun x => pred x.1 :=
    List.argmin_mem (Option.mem_def.mpr h)
  exact List.mem_filter.mp hmem

/-- Growing the collected list only strengthens the scan filter. -/
theorem scanPred_append_imp (p : Entity → Bool) (acc : List (Entity × Toi))
    (hit : Entity × Toi) :
    ∀ e, scanPred p (acc ++ [hit]) e = true → scanPred p acc e = true := by
  intro e h
  simp only [scanPred, List.any_append, List.any_cons, List.any_nil,
    Bool.or_false, Bool.not_or, Bool.and_eq_true, Bool.not_eq_true'] at h ⊢
  exact ⟨h.1.1, h.2⟩

/-- The scan filter rejects a collider just collected. -/
theorem scanPred_self_false (p : Entity → Bool) (acc : List (Entity × Toi))
    (hit : Entity × Toi) : scanPred p (acc ++ [hit]) hit.1 = false := by
  simp [scanPred, List.any_append]

/-- Each iteration of the scan loop strictly shrinks the set of world
colliders still admitted by the filter. -/
theorem scan_measure_lt {world : List (Entity × Toi)} {p : Entity → Bool}
    {acc : List (Entity × Toi)} {hit : Entity × Toi}
    (h : castShape world (scanPred p acc) = some hit) :
    (world.filter fun x => scanPred p (acc ++ [hit]) x.1).length <
      (world.filter fun x => scanPred p acc x.1).length := by
  obtain ⟨hmem, hpred⟩ := castShape_sound h
  exact filter_length_lt_of_imp
    (fun x hx => scanPred_append_imp p acc hit x.1 hx)
    world hmem hpred (scanPred_self_false p acc hit)

/-- Once the fuel dominates the number of admissible world colliders,
adding more fuel cannot change the scan result. -/
theorem scanGo_stable (world : List (Entity × Toi)) (p : Entity → Bool) :
    ∀ n acc, (world.filter fun x => scanPred p acc x.1).length ≤ n →
      ∀ k, scanGo world p (n + k) acc = scanGo world p n acc := by
  intro n
  induction n with
  | zero =>
    intro acc h k
    have hnil : (world.filter fun x => scanPred p acc x.1) = [] :=
      List.length_eq_zero.mp (Nat.le_zero.mp h)
    have hcast : castShape world (scanPred p acc) = none := by
      unfold castShape
      rw [hnil]
      rfl
    cases k with
    | zero => rfl
    | succ k =>
      rw [Nat.zero_add]
      simp [scanGo, hcast]
  | succ n ih =>
    intro acc h k
    have harith : n + 1 + k = (n + k) + 1 := by omega
    rw [harith]
    cases hcast : castShape world (scanPred p acc) with
    | none => simp [scanGo, hcast]
    | some hit =>
      have hm : (world.filter fun x => scanPred p (acc ++ [hit]) x.1).length
          ≤ n := by
        have := scan_measure_lt hcast
        omega
      simp only [scanGo, hcast]
      exact ih (acc ++ [hit]) hm k

/-- With enough fuel, the scan loop really exits through the no-hit
branch: the cast at the returned collection misses. -/
theorem scanGo_exits (world : List (Entity × Toi)) (p : Entity → Bool) :
    ∀ n acc, (world.filter fun x => scanPred p acc x.1).length ≤ n →
      castShape world (scanPred p (scanGo world p n acc)) = none := by
  intro n
  induction n with
  | zero =>
    intro acc h
    have hnil : (world.filter fun x => scanPred p acc x.1) = [] :=
      List.length_eq_zero.mp (Nat.le_zero.mp h)
    show castShape world (scanPred p acc) = none
    unfold castShape
    rw [hnil]
    rfl
  | succ n ih =>
    intro acc h
    cases hcast : castShape world (scanPred p acc) with
    | none => simp [scanGo, hcast]
    | some hit =>
      have hm : (world.filter fun x => scanPred p (acc ++ [hit]) x.1).length
          ≤ n := by
        have := scan_measure_lt hcast
        omega
      simp only [scanGo, hcast]
      exact ih (acc ++ [hit]) hm

/-- Claim C9: the iterated single-hit shape-cast loop terminates for every
finite world: each iteration's filter excludes the character and every
collider already collected, so each hit strictly shrinks the admissible
set; `world.length` iterations already reach the loop's fixed point (more
fuel changes nothing), and the loop exits because a cast returns no hit. -/
theorem scan_loop_terminates (world : List (Entity × Toi))
    (p : Entity → Bool) :
    (∀ k, scanGo world p (world.length + k) [] =
        intersections_with_shape_cast world p) ∧
      castShape world
        (scanPred p (intersections_with_shape_cast world p)) = none := by
  have hbound : (world.filter fun x => scanPred p [] x.1).length ≤
      world.length := List.length_filter_le _ _
  constructor
  · intro k
    unfold intersections_with_shape_cast
    exact scanGo_stable world p world.length [] hbound k
  · unfold intersections_with_shape_cast
    exact scanGo_exits world p world.length [] hbound

/-- Claim C4: on a tick whose elapsed time is zero, the movement pass
performs no state mutation for any character — no timer, jump flag,
remaining-jump count or stored goal velocity changes, no impulse or torque
is written, and the custom impulse/torque inputs are untouched: the early
return fires before any per-character processing. -/
theorem zero_dt_mutates_nothing (chars : List Character) :
    movementRun 0 chars = some chars := by
  cases chars with
  | nil => rfl
  | cons c rest => simp [movementRun]

/-- Claim C7: after any tick the custom impulse and torque inputs are
zero; their previous values were added into the written impulse/torque. -/
theorem custom_inputs_consumed (env : Env) (entity : Entity)
    (settings : ControllerSettings) (st : ControllerState)
    (input : ControllerInput) (dt : ℚ) (vel : Velocity)
    (hv : env.velocities entity = some vel) :
    ∃ out, movementTick env entity settings st input dt = some out ∧
      out.input.custom_impulse = 0 ∧ out.input.custom_torque = 0 ∧
      out.impulse =
        movementForce env entity settings st input dt vel +
          jumpFinal env entity settings st input dt vel +
          floatSpringFinal env entity settings st input dt vel +
          gravityOf env entity settings st dt + input.custom_impulse ∧
      out.torque_impulse =
        uprightOf env settings dt vel + input.custom_torque := by
  simp only [movementTick, hv]
  exact ⟨_, rfl, rfl, rfl, rfl, rfl⟩

/-- Closed instance of `custom_inputs_consumed` at configuration A. -/
theorem custom_inputs_consumed_witness :
    exEnvA.velocities 0 = some exVelA ∧
    ∃ out, movementTick exEnvA 0 exSettingsA exStateA exInputA 1 = some out ∧
      out.input.custom_impulse = 0 ∧ out.input.custom_torque = 0 ∧
      out.impulse =
        movementForce exEnvA 0 exSettingsA exStateA exInputA 1 exVelA +
          jumpFinal exEnvA 0 exSettingsA exStateA exInputA 1 exVelA +
          floatSpringFinal exEnvA 0 exSettingsA exStateA exInputA 1 exVelA +
          gravityOf exEnvA 0 exSettingsA exStateA 1 + exInputA.custom_impulse ∧
      out.torque_impulse =
        uprightOf exEnvA exSettingsA 1 exVelA + exInputA.custom_torque :=
  ⟨rfl, custom_inputs_consumed exEnvA 0 exSettingsA exStateA exInputA 1 exVelA
    rfl⟩

/-- Claim C6: the combined goal velocity steering the horizontal motion is
the unit-clamped input direction scaled by max speed plus the ground
body's linear velocity, the latter being zero when no ground cast was
selected (airborne) or the ground body has no velocity state; the tick
persists the blend of the stored goal velocity toward it. -/
theorem goal_velocity_combined (env : Env) (entity : Entity)
    (settings : ControllerSettings) (st : ControllerState)
    (input : ControllerInput) (dt : ℚ) (vel : Velocity)
    (hv : env.velocities entity = some vel) :
    ∃ out, movementTick env entity settings st input dt = some out ∧
      out.state.last_goal_velocity =
        Vec3.lerp st.last_goal_velocity
          (settings.max_speed • Vec3.clampLengthMax env.sqrt input.movement 1 +
            ((groundVelOf env entity settings st).map Velocity.linvel).getD 0)
          (min (settings.acceleration * dt) 1) ∧
      (groundCastOf env entity settings st = none →
        ((groundVelOf env entity settings st).map Velocity.linvel).getD 0
          = 0) ∧
      ∀ g t, groundCastOf env entity settings st = some (g, t) →
        env.velocities g = none →
        ((groundVelOf env entity settings st).map Velocity.linvel).getD 0
          = 0 := by
  simp only [movementTick, hv]
  refine ⟨_, rfl, rfl, ?_, ?_⟩
  · intro h
    simp [groundVelOf, h]
  · intro g t h hnone
    simp [groundVelOf, h, hnone]

/-- Closed instance of `goal_velocity_combined` at configuration A. -/
theorem goal_velocity_combined_witness :
    exEnvA.velocities 0 = some exVelA ∧
    ∃ out, movementTick exEnvA 0 exSettingsA exStateA exInputA 1 = some out ∧
      out.state.last_goal_velocity =
        Vec3.lerp exStateA.last_goal_velocity
          (exSettingsA.max_speed •
              Vec3.clampLengthMax exEnvA.sqrt exInputA.movement 1 +
            ((groundVelOf exEnvA 0 exSettingsA exStateA).map
                Velocity.linvel).getD 0)
          (min (exSettingsA.acceleration * 1) 1) ∧
      (groundCastOf exEnvA 0 exSettingsA exStateA = none →
        ((groundVelOf exEnvA 0 exSettingsA exStateA).map
            Velocity.linvel).getD 0 = 0) ∧
      ∀ g t, groundCastOf exEnvA 0 exSettingsA exStateA = some (g, t) →
        exEnvA.velocities g = none →
        ((groundVelOf exEnvA 0 exSettingsA exStateA).map
            Velocity.linvel).getD 0 = 0 :=
  ⟨rfl, goal_velocity_combined exEnvA 0 exSettingsA exStateA exInputA 1 exVelA
    rfl⟩

/-- Claim C2: on a tick with positive elapsed time, `remaining_jumps`
stays within `[0, extra_jumps]` (non-negativity is inherent to the
unsigned count), and the decrement on an airborne trigger with zero coyote
timer only happens when a charge remains, so the unsigned subtraction
never underflows. -/
theorem remaining_jumps_bounded (env : Env) (entity : Entity)
    (settings : ControllerSettings) (st : ControllerState)
    (input : ControllerInput) (dt : ℚ) (vel : Velocity)
    (hdt : 0 < dt)
    (hv : env.velocities entity = some vel)
    (hpre : st.remaining_jumps ≤ settings.extra_jumps) :
    ∃ out, movementTick env entity settings st input dt = some out ∧
      out.state.remaining_jumps ≤ settings.extra_jumps ∧
      (jumpTriggered env entity settings st input dt = true ∧
        groundedOf env entity settings st = false ∧
        coyoteAfterGround env entity settings st dt = 0 →
        0 < st.remaining_jumps) := by
  simp only [movementTick, hv]
  refine ⟨_, rfl, ?_, ?_⟩
  · have hra : remainingAfterGround env entity settings st ≤
        settings.extra_jumps := by
      unfold remainingAfterGround
      split
      · exact Nat.le_refl _
      · exact hpre
    dsimp only
    split
    · exact Nat.le_trans (Nat.sub_le _ _) hra
    · exact hra
  · rintro ⟨htrig, hg, hcoy⟩
    have hra : remainingAfterGround env entity settings st =
        st.remaining_jumps := by
      simp [remainingAfterGround, hg]
    simp only [jumpTriggered, hg, hcoy, hra, Bool.false_or,
      Bool.and_eq_true, Bool.or_eq_true, decide_eq_true_eq,
      lt_self_iff_false, false_or] at htrig
    exact htrig.2

/-- Closed instance of `remaining_jumps_bounded` at configuration A. -/
theorem remaining_jumps_bounded_witness :
    (0 : ℚ) < 1 ∧ exStateA.remaining_jumps ≤ exSettingsA.extra_jumps ∧
    ∃ out, movementTick exEnvA 0 exSettingsA exStateA exInputA 1 = some out ∧
      out.state.remaining_jumps ≤ exSettingsA.extra_jumps ∧
      (jumpTriggered exEnvA 0 exSettingsA exStateA exInputA 1 = true ∧
        groundedOf exEnvA 0 exSettingsA exStateA = false ∧
        coyoteAfterGround exEnvA 0 exSettingsA exStateA 1 = 0 →
        0 < exStateA.remaining_jumps) :=
  ⟨by decide, by decide,
    remaining_jumps_bounded exEnvA 0 exSettingsA exStateA exInputA 1 exVelA
      (by decide) rfl (by decide)⟩

/-- Claim C8: each of the four per-character timers is non-negative after
the tick, given non-negative configured durations and non-negative timers
entering the tick (the inductive invariant — a timer left unchanged keeps
its previous value): every decay is `max (x - dt) 0` and every other write
stores zero or a configured duration. -/
theorem timers_nonneg (env : Env) (entity : Entity)
    (settings : ControllerSettings) (st : ControllerState)
    (input : ControllerInput) (dt : ℚ) (vel : Velocity)
    (hv : env.velocities entity = some vel)
    (hcoyd : 0 ≤ settings.coyote_time_duration)
    (hbufd : 0 ≤ settings.jump_buffer_duration)
    (hjtd : 0 ≤ settings.jump_time)
    (hskipd : 0 ≤ settings.jump_skip_ground_check_duration)
    (hc : 0 ≤ st.coyote_timer) (hb : 0 ≤ st.jump_buffer_timer)
    (hj : 0 ≤ st.jump_timer) (hs : 0 ≤ st.skip_ground_check_timer) :
    ∃ out, movementTick env entity settings st input dt = some out ∧
      0 ≤ out.state.coyote_timer ∧ 0 ≤ out.state.jump_buffer_timer ∧
      0 ≤ out.state.jump_timer ∧ 0 ≤ out.state.skip_ground_check_timer := by
  simp only [movementTick, hv]
  refine ⟨_, rfl, ?_, ?_, ?_, ?_⟩
  · unfold coyoteAfterGround
    dsimp only
    split
    · exact hcoyd
    · exact le_max_right _ 0
  · dsimp only
    split
    · exact le_refl 0
    · unfold bufferAfterAir
      split
      · exact hb
      · split
        · exact hbufd
        · exact le_max_right _ 0
  · dsimp only
    split
    · exact hjtd
    · unfold ascentStage
      split
      · split
        · exact le_refl 0
        · exact le_max_right _ 0
      · exact hj
  · dsimp only
    split
    · exact hskipd
    · unfold skipTimerAfterContacts skipTimerAfterCast
      split
      · exact le_refl 0
      · split
        · exact hs
        · exact le_max_right _ 0

/-- Closed instance of `timers_nonneg` at configuration A. -/
theorem timers_nonneg_witness :
    (0 : ℚ) ≤ exSettingsA.coyote_time_duration ∧
    (0 : ℚ) ≤ exStateA.skip_ground_check_timer ∧
    ∃ out, movementTick exEnvA 0 exSettingsA exStateA exInputA 1 = some out ∧
      0 ≤ out.state.coyote_timer ∧ 0 ≤ out.state.jump_buffer_timer ∧
      0 ≤ out.state.jump_timer ∧ 0 ≤ out.state.skip_ground_check_timer :=
  ⟨by decide, by decide,
    timers_nonneg exEnvA 0 exSettingsA exStateA exInputA 1 exVelA rfl
      (by decide) (by decide) (by decide) (by decide) (by decide) (by decide)
      (by decide) (by decide)⟩

/-- Claim C10: when the ground cast is skipped (skip timer positive at the
cast decision, or the settings' override set) the character is treated as
having no ground contact: no cast is selected, grounded is false, the
float spring force is zero, gravity is applied, the coyote timer decays,
and the extra-jump charges are not refreshed. -/
theorem skip_window_treated_airborne (env : Env) (entity : Entity)
    (settings : ControllerSettings) (st : ControllerState)
    (input : ControllerInput) (dt : ℚ) (vel : Velocity)
    (hskip : 0 < st.skip_ground_check_timer ∨
      settings.skip_ground_check_override = true)
    (hv : env.velocities entity = some vel) :
    groundCastOf env entity settings st = none ∧
    groundedOf env entity settings st = false ∧
    floatSpringFinal env entity settings st input dt vel = 0 ∧
    gravityOf env entity settings st dt =
      (-settings.gravity * dt) • settings.up_vector ∧
    ∃ out, movementTick env entity settings st input dt = some out ∧
      out.state.coyote_timer = max (st.coyote_timer - dt) 0 ∧
      out.state.remaining_jumps ≤ st.remaining_jumps := by
  have hcast : castsThisTick settings st = false := by
    rcases hskip with h | h
    · simp only [castsThisTick, decide_eq_false_iff_not]
      rintro ⟨h0, -⟩
      rw [h0] at h
      exact absurd h (lt_irrefl 0)
    · simp [castsThisTick, h]
  have hgc : groundCastOf env entity settings st = none := by
    simp [groundCastOf, hcast]
  have hgr : groundedOf env entity settings st = false := by
    simp [groundedOf, floatOffsetOf, hgc]
  have hra : remainingAfterGround env entity settings st =
      st.remaining_jumps := by
    simp [remainingAfterGround, hgr]
  refine ⟨hgc, hgr, ?_, ?_, ?_⟩
  · unfold floatSpringFinal
    split
    · rfl
    · simp [floatSpringRaw, hgc]
  · simp [gravityOf, hgc]
  · simp only [movementTick, hv]
    refine ⟨_, rfl, ?_, ?_⟩
    · simp [coyoteAfterGround, hgr]
    · dsimp only
      split
      · rw [hra]
        exact Nat.sub_le _ _
      · rw [hra]

/-- Closed instance of `skip_window_treated_airborne` at configuration A. -/
theorem skip_window_treated_airborne_witness :
    (0 < exStateA.skip_ground_check_timer ∨
      exSettingsA.skip_ground_check_override = true) ∧
    (groundCastOf exEnvA 0 exSettingsA exStateA = none ∧
      groundedOf exEnvA 0 exSettingsA exStateA = false ∧
      floatSpringFinal exEnvA 0 exSettingsA exStateA exInputA 1 exVelA = 0 ∧
      gravityOf exEnvA 0 exSettingsA exStateA 1 =
        (-exSettingsA.gravity * 1) • exSettingsA.up_vector ∧
      ∃ out, movementTick exEnvA 0 exSettingsA exStateA exInputA 1
          = some out ∧
        out.state.coyote_timer = max (exStateA.coyote_timer - 1) 0 ∧
        out.state.remaining_jumps ≤ exStateA.remaining_jumps) :=
  ⟨Or.inl (by decide),
    skip_window_treated_airborne exEnvA 0 exSettingsA exStateA exInputA 1
      exVelA (Or.inl (by decide)) rfl⟩

/-- Claim C3 (amended): the float spring force is zeroed whenever the
ascent thrust runs this tick or a jump triggers this tick; the
early-release jump-stop branch does not zero it. -/
theorem float_spring_zeroed_on_jump (env : Env) (entity : Entity)
    (settings : ControllerSettings) (st : ControllerState)
    (input : ControllerInput) (dt : ℚ) (vel : Velocity) :
    ((0 < st.jump_timer ∧ groundedOf env entity settings st = false ∧
        input.jumping = true) →
      floatSpringFinal env entity settings st input dt vel = 0) ∧
    (jumpTriggered env entity settings st input dt = true →
      floatSpringFinal env entity settings st input dt vel = 0) := by
  constructor
  · rintro ⟨hjt, hg, hjump⟩
    have hflag : (ascentStage settings st input dt
        (groundedOf env entity settings st) vel).2.2 = true := by
      rw [hg]
      simp [ascentStage, hjt, hjump]
    simp [floatSpringFinal, hflag]
  · intro htrig
    simp [floatSpringFinal, htrig]

/-- Closed instance of `float_spring_zeroed_on_jump` at configuration A
with an active ascent (state D). -/
theorem float_spring_zeroed_on_jump_witness :
    (0 < exStateD.jump_timer ∧
      groundedOf exEnvA 0 exSettingsA exStateD = false ∧
      exInputA.jumping = true) ∧
    floatSpringFinal exEnvA 0 exSettingsA exStateD exInputA 1 exVelA = 0 :=
  ⟨⟨by decide, by decide, by decide⟩,
    (float_spring_zeroed_on_jump exEnvA 0 exSettingsA exStateD exInputA 1
      exVelA).1 ⟨by decide, by decide, by decide⟩⟩

/-- Counterexample to claim C3 as stated: at configuration B a nonzero
early-release jump-stop force is applied while the float spring force is
left at its nonzero raw value, so the spring is not zeroed whenever a
jump-stop force is active. -/
theorem float_spring_not_zeroed_on_stop :
    (0 < exStateB.jump_timer ∧
      groundedOf exEnvB 0 exSettingsB exStateB = false ∧
      exInputB.jumping = false) ∧
    jumpFinal exEnvB 0 exSettingsB exStateB exInputB 1 exVelB = ⟨0, -3, 0⟩ ∧
    (⟨0, -3, 0⟩ : Vec3) ≠ 0 ∧
    floatSpringFinal exEnvB 0 exSettingsB exStateB exInputB 1 exVelB
      = ⟨0, -8, 0⟩ ∧
    (⟨0, -8, 0⟩ : Vec3) ≠ 0 := by
  refine ⟨⟨by decide, ?_, by decide⟩, ?_, by decide, ?_, by decide⟩
  · norm_num +decide [groundedOf, floatOffsetOf, groundCastOf, castsThisTick,
      intersections_with_shape_cast, scanGo, scanPred, castShape,
      Vec3.angleBetween, exStateB, exSettingsB, exEnvB, List.argmin,
      List.argAux]
  · norm_num +decide [jumpFinal, ascentStage, jumpTriggered, justJumped,
      bufferAfterAir, remainingAfterGround, groundedOf, floatOffsetOf,
      groundCastOf, castsThisTick, intersections_with_shape_cast, scanGo,
      scanPred, castShape, Vec3.angleBetween, Vec3.dot, Vec3.projectOnto,
      exStateB, exSettingsB, exEnvB, exInputB, exVelB, List.argmin,
      List.argAux]
  · norm_num +decide [floatSpringFinal, floatSpringRaw, ascentStage,
      jumpTriggered, justJumped, bufferAfterAir, remainingAfterGround,
      groundedOf, floatOffsetOf, groundCastOf, castsThisTick,
      intersections_with_shape_cast, scanGo, scanPred, castShape,
      Vec3.angleBetween, Vec3.dot, Vec3.projectOnto, exStateB, exSettingsB,
      exEnvB, exInputB, exVelB, List.argmin, List.argAux]

/-- Claim C5 (amended): the ground scan is skipped exactly when the skip
timer is nonzero or the settings' skip-ground-check override is set (the
override forces a skip, not a check); when skipped, the skip timer decays
by the elapsed time floored at zero, and when the scan runs the timer is
left unchanged by this block. -/
theorem ground_scan_skip_condition (env : Env) (entity : Entity)
    (settings : ControllerSettings) (st : ControllerState) (dt : ℚ) :
    (castsThisTick settings st = false ↔
      (st.skip_ground_check_timer ≠ 0 ∨
        settings.skip_ground_check_override = true)) ∧
    (castsThisTick settings st = false →
      groundCastOf env entity settings st = none ∧
      skipTimerAfterCast settings st dt =
        max (st.skip_ground_check_timer - dt) 0) ∧
    (castsThisTick settings st = true →
      skipTimerAfterCast settings st dt = st.skip_ground_check_timer) := by
  refine ⟨?_, ?_, ?_⟩
  · simp only [castsThisTick, decide_eq_false_iff_not, not_and_or]
    constructor
    · rintro (h | h)
      · exact Or.inl h
      · exact Or.inr (by simpa using h)
    · rintro (h | h)
      · exact Or.inl h
      · exact Or.inr (by simp [h])
  · intro h
    constructor
    · simp [groundCastOf, h]
    · simp [skipTimerAfterCast, h]
  · intro h
    simp [skipTimerAfterCast, h]

/-- Closed instance of `ground_scan_skip_condition` at configuration C. -/
theorem ground_scan_skip_condition_witness :
    castsThisTick exSettingsC exStateC = false ∧
    (groundCastOf exEnvB 0 exSettingsC exStateC = none ∧
      skipTimerAfterCast exSettingsC exStateC 1 =
        max (exStateC.skip_ground_check_timer - 1) 0) :=
  ⟨by decide,
    (ground_scan_skip_condition exEnvB 0 exSettingsC exStateC 1).2.1
      (by decide)⟩

/-- Counterexample to claim C5 as stated: at configuration C the skip
timer is zero — so the claimed skip condition "timer greater than zero and
no override" is false — yet the scan is skipped (the override forces a
skip), and no ground cast is selected even though the world holds a
collider. -/
theorem ground_scan_skip_counterexample :
    castsThisTick exSettingsC exStateC = false ∧
    ¬ (0 < exStateC.skip_ground_check_timer ∧
        exSettingsC.skip_ground_check_override = false) ∧
    groundCastOf exEnvB 0 exSettingsC exStateC = none ∧
    exEnvB.world ≠ [] := by
  refine ⟨by decide, by decide, ?_, by decide⟩
  have hcast : castsThisTick exSettingsC exStateC = false := by decide
  simp [groundCastOf, hcast]

/-- Claim C1 (amended): on every tick on which a jump triggers, the jump
force written for the tick is the componentwise product of the current
velocity with the up-axis vector, negated, plus
`jump_initial_force * up_vector` (for an axis-aligned unit up vector this
coincides with the spec's projection formula, but not in general), and the
float spring contribution of that tick is zero. -/
theorem jump_trigger_force_componentwise (env : Env) (entity : Entity)
    (settings : ControllerSettings) (st : ControllerState)
    (input : ControllerInput) (dt : ℚ) (vel : Velocity)
    (hv : env.velocities entity = some vel)
    (htrig : jumpTriggered env entity settings st input dt = true) :
    floatSpringFinal env entity settings st input dt vel = 0 ∧
    jumpFinal env entity settings st input dt vel =
      (-1 : ℚ) • (vel.linvel * settings.up_vector) +
        settings.jump_initial_force • settings.up_vector ∧
    ∃ out, movementTick env entity settings st input dt = some out ∧
      out.impulse =
        movementForce env entity settings st input dt vel +
          ((-1 : ℚ) • (vel.linvel * settings.up_vector) +
            settings.jump_initial_force • settings.up_vector) +
          floatSpringFinal env entity settings st input dt vel +
          gravityOf env entity settings st dt + input.custom_impulse := by
  have hjf : jumpFinal env entity settings st input dt vel =
      (-1 : ℚ) • (vel.linvel * settings.up_vector) +
        settings.jump_initial_force • settings.up_vector := by
    simp [jumpFinal, htrig]
  refine ⟨?_, hjf, ?_⟩
  · simp [floatSpringFinal, htrig]
  · simp only [movementTick, hv]
    exact ⟨_, rfl, by rw [hjf]⟩

/-- Closed instance of `jump_trigger_force_componentwise` at
configuration A. -/
theorem jump_trigger_force_componentwise_witness :
    jumpTriggered exEnvA 0 exSettingsA exStateA exInputA 1 = true ∧
    (floatSpringFinal exEnvA 0 exSettingsA exStateA exInputA 1 exVelA = 0 ∧
      jumpFinal exEnvA 0 exSettingsA exStateA exInputA 1 exVelA =
        (-1 : ℚ) • (exVelA.linvel * exSettingsA.up_vector) +
          exSettingsA.jump_initial_force • exSettingsA.up_vector ∧
      ∃ out, movementTick exEnvA 0 exSettingsA exStateA exInputA 1
          = some out ∧
        out.impulse =
          movementForce exEnvA 0 exSettingsA exStateA exInputA 1 exVelA +
            ((-1 : ℚ) • (exVelA.linvel * exSettingsA.up_vector) +
              exSettingsA.jump_initial_force • exSettingsA.up_vector) +
            floatSpringFinal exEnvA 0 exSettingsA exStateA exInputA 1 exVelA +
            gravityOf exEnvA 0 exSettingsA exStateA 1 +
            exInputA.custom_impulse) :=
  have htrig : jumpTriggered exEnvA 0 exSettingsA exStateA exInputA 1
      = true := by
    norm_num +decide [jumpTriggered, justJumped, remainingAfterGround,
      groundedOf, floatOffsetOf, groundCastOf, castsThisTick, exStateA,
      exSettingsA, exEnvA, exInputA]
  ⟨htrig,
    jump_trigger_force_componentwise exEnvA 0 exSettingsA exStateA exInputA 1
      exVelA rfl htrig⟩

/-- Counterexample to claim C1 as stated: at configuration A a jump
triggers with up vector `(1,1,0)` and velocity `(1,0,0)`; the code writes
the componentwise product `(-1,0,0)` (also visible in the tick's written
impulse), while the spec's projection formula
`(v · up) * up * -1 + jump_initial_force * up` yields `(-1,-1,0)`. -/
theorem jump_force_projection_counterexample :
    jumpTriggered exEnvA 0 exSettingsA exStateA exInputA 1 = true ∧
    exEnvA.velocities 0 = some exVelA ∧
    jumpFinal exEnvA 0 exSettingsA exStateA exInputA 1 exVelA = ⟨-1, 0, 0⟩ ∧
    (movementTick exEnvA 0 exSettingsA exStateA exInputA 1).map
      TickOut.impulse = some ⟨-1, 0, 0⟩ ∧
    specJumpForce exVelA.linvel exSettingsA.up_vector
      exSettingsA.jump_initial_force = ⟨-1, -1, 0⟩ ∧
    jumpFinal exEnvA 0 exSettingsA exStateA exInputA 1 exVelA ≠
      specJumpForce exVelA.linvel exSettingsA.up_vector
        exSettingsA.jump_initial_force := by
  refine ⟨?_, rfl, ?_, ?_, ?_, ?_⟩
  · norm_num +decide [jumpTriggered, justJumped, remainingAfterGround,
      groundedOf, floatOffsetOf, groundCastOf, castsThisTick, exStateA,
      exSettingsA, exEnvA, exInputA]
  · norm_num +decide [jumpFinal, jumpTriggered, justJumped,
      remainingAfterGround, groundedOf, floatOffsetOf, groundCastOf,
      castsThisTick, exStateA, exSettingsA, exEnvA, exInputA, exVelA]
  · norm_num +decide [movementTick, movementForce, goalVelOf,
      combinedGoalVel, groundVelOf, Vec3.lerp, Vec3.clampLengthMax,
      Vec3.lengthSq, Vec3.dot, jumpFinal, floatSpringFinal, floatSpringRaw,
      ascentStage, gravityOf, jumpTriggered, justJumped, bufferAfterAir,
      remainingAfterGround, coyoteAfterGround, groundedOf, floatOffsetOf,
      groundCastOf, castsThisTick, exStateA, exSettingsA, exEnvA, exInputA,
      exVelA]
  · norm_num [specJumpForce, Vec3.dot, exVelA, exSettingsA]
  · intro h
    have h2 : specJumpForce exVelA.linvel exSettingsA.up_vector
        exSettingsA.jump_initial_force = ⟨-1, -1, 0⟩ := by
      norm_num [specJumpForce, Vec3.dot, exVelA, exSettingsA]
    have h1 : jumpFinal exEnvA 0 exSettingsA exStateA exInputA 1 exVelA
        = ⟨-1, 0, 0⟩ := by
      norm_num +decide [jumpFinal, jumpTriggered, justJumped,
        remainingAfterGround, groundedOf, floatOffsetOf, groundCastOf,
        castsThisTick, exStateA, exSettingsA, exEnvA, exInputA, exVelA]
    rw [h1, h2] at h
    exact absurd h (by decide)

end Wanderlust
